import Mathlib

/-!
Verification development for the nand2tetris toolchain (Jack compiler,
VM translator, Hack assembler).  Each Python module under `src/compiler/`
is shallowly embedded below: pure functions become Lean functions, the
generators and recursive-descent routines take an explicit fuel argument,
Python exceptions become `Except` errors, and Python attribute errors on
dynamically-typed AST fields are modelled by explicit error values.
-/

set_option maxRecDepth 4000

namespace N2T

/-! ## symbol_table.py -/

/-- `Kind` enum from symbol_table.py. -/
inductive Kind
  | FIELD
  | STATIC
  | LOCAL
  | ARGUMENT
deriving DecidableEq, Repr

/-- The `Type` dataclass hierarchy from symbol_table.py
(`TypeInt`, `TypeChar`, `TypeBool`, `TypeClass(value)`). -/
inductive Type_
  | TypeInt
  | TypeChar
  | TypeBool
  | TypeClassOf (value : String)
deriving DecidableEq, Repr

/-- The `Symbol` dataclass from symbol_table.py. -/
structure Symbol where
  name : String
  type_ : Type_
  kind : Kind
  index : Int
deriving DecidableEq, Repr

/-- The index computation inside `SymbolTable.add`:
`max((s.index for s in table if s.kind == kind), default=-1) + 1`.
The table is a list in insertion order (Python dict preserves it). -/
def nextIndex (t : List Symbol) (k : Kind) : Int :=
  (t.filterMap (fun s => if s.kind = k then some s.index else none)).foldl max (-1) + 1

/-- `SymbolTable.add`: raises `SymbolTableError` when the name exists,
otherwise inserts a symbol whose index is `nextIndex`. -/
def stAdd (t : List Symbol) (n : String) (ty : Type_) (k : Kind) :
    Except String (List Symbol) :=
  if t.any (fun s => s.name = n) then .error ("Symbol already exists: " ++ n)
  else .ok (t ++ [⟨n, ty, k, nextIndex t k⟩])

/-- `SymbolTable.lookup`: dict access; names are unique in the table, so a
first-match scan is the dict lookup. -/
def stLookup (t : List Symbol) (n : String) : Option Symbol :=
  t.find? (fun s => s.name = n)

/-- A sequence of `add` calls on one `SymbolTable`, as a fold. -/
def addAll (t : List Symbol) : List (String × Type_ × Kind) → Except String (List Symbol)
  | [] => .ok t
  | x :: xs =>
    match stAdd t x.1 x.2.1 x.2.2 with
    | .error e => .error e
    | .ok t1 => addAll t1 xs

/-- `SymbolTables.lookup`: walk the stack of tables front (innermost) to back. -/
def tablesLookup (tabs : List (List Symbol)) (n : String) : Option Symbol :=
  match tabs with
  | [] => none
  | t :: rest =>
    match stLookup t n with
    | some s => some s
    | none => tablesLookup rest n

/-- Number of entries of a given kind in a table, as an integer. -/
def countOfKind (t : List Symbol) (k : Kind) : Int :=
  ((t.filter (fun s => s.kind = k)).length : Int)

/-- Number of entries of a given kind in a list of pending `add` arguments. -/
def countKind (l : List (String × Type_ × Kind)) (k : Kind) : Nat :=
  (l.filter (fun x => x.2.2 = k)).length

/-! ## tokenizer.py -/

/-- The `Token` dataclass hierarchy from tokenizer.py: `Keyword`, `Symbol`,
`Identifier`, `IntegerConstant`, `StringConstant`, each carrying `line_num`. -/
inductive Token
  | keyword (lineNum : Nat) (value : String)
  | symbol (lineNum : Nat) (value : String)
  | identifier (lineNum : Nat) (value : String)
  | integerConstant (lineNum : Nat) (value : String)
  | stringConstant (lineNum : Nat) (value : String)
deriving DecidableEq, Repr

/-- `.value` attribute shared by all token subclasses. -/
def Token.value : Token → String
  | .keyword _ v => v
  | .symbol _ v => v
  | .identifier _ v => v
  | .integerConstant _ v => v
  | .stringConstant _ v => v

/-- `.line_num` attribute shared by all token subclasses. -/
def Token.lineNum : Token → Nat
  | .keyword n _ => n
  | .symbol n _ => n
  | .identifier n _ => n
  | .integerConstant n _ => n
  | .stringConstant n _ => n

/-- `VALID_KEYWORDS` from tokenizer.py. -/
def VALID_KEYWORDS : List String :=
  ["class", "constructor", "function", "method", "field", "static", "var",
   "int", "char", "boolean", "void", "true", "false", "null", "this",
   "let", "do", "if", "else", "while", "return"]

/-- `VALID_SYMBOLS` from tokenizer.py (escape order is irrelevant: the 19
single-character alternatives are disjoint). -/
def VALID_SYMBOLS : List Char :=
  ['(', ')', '[', ']', '.', '-', '+', '*', '|', '{', '}', ',', ';', '/', '&', '<', '>', '=', '~']

/-- Python regex `\s` on ASCII text: space, tab, newline, carriage return,
form feed, vertical tab. -/
def isPyWS (c : Char) : Bool :=
  c = ' ' || c = '\t' || c = '\n' || c = '\r' || c = Char.ofNat 11 || c = Char.ofNat 12

/-- `[a-zA-Z_]`, the first character of `IDENTIFIER_KEYWORD_REGEX`. -/
def isIdentStart (c : Char) : Bool :=
  c.isAlpha || c = '_'

/-- `[a-zA-Z_\d]`, the following characters of `IDENTIFIER_KEYWORD_REGEX`. -/
def isIdentChar (c : Char) : Bool :=
  c.isAlpha || c = '_' || c.isDigit

/-- The character class `[a-zA-Z\d?\s:]` of `STRING_CONSTANT_REGEX`. -/
def isStrClass (c : Char) : Bool :=
  c.isAlpha || c.isDigit || c = '?' || isPyWS c || c = ':'

/-- `MULTILINE_COMMENT_END_REGEX = ^.*\*/(.*)`: the greedy `.*` makes the
match use the LAST occurrence of the closing marker; returns what follows it,
or `none` when the line holds no marker. -/
def afterLastCommentClose : List Char → Option (List Char)
  | [] => none
  | '*' :: '/' :: rest =>
    match afterLastCommentClose rest with
    | some r => some r
    | none => some rest
  | _ :: rest => afterLastCommentClose rest

/-- Tokenizer error: `TokenizeError(f"{line_num}: failed to tokenize: {line}")`
plus an out-of-fuel marker for the fuelled line loop. -/
inductive TokErr
  | tokenizeError (lineNum : Nat) (rest : String)
  | outOfFuel
deriving DecidableEq, Repr

/-- `_parse_token` from tokenizer.py.  Returns the token produced (or `none`
for the comment/whitespace cases), the remaining text of the line, and the
updated `in_comment` flag.  Lines are modelled as the compiler feeds them:
`read_text().split("\n")` yields newline-free strings, so the stop-at-newline
behaviour of the regex groups (`.` does not match a newline) is not
observable and the groups reduce to the take/drop operations used here. -/
def parseToken (line : List Char) (lineNum : Nat) (inComment : Bool) :
    Except TokErr (Option Token × List Char × Bool) :=
  if inComment then
    match afterLastCommentClose line with
    | some rest => .ok (none, rest, false)
    | none => .ok (none, [], true)
  else
    let line1 := line.dropWhile isPyWS
    match line1 with
    | '/' :: '/' :: _ => .ok (none, [], false)
    | '/' :: '*' :: rest => .ok (none, rest, true)
    | c :: rest =>
      if isIdentStart c then
        let name := line1.takeWhile isIdentChar
        let rest1 := (line1.dropWhile isIdentChar).dropWhile isPyWS
        if VALID_KEYWORDS.contains (String.mk name) then
          .ok (some (.keyword lineNum (String.mk name)), rest1, false)
        else
          .ok (some (.identifier lineNum (String.mk name)), rest1, false)
      else if VALID_SYMBOLS.contains c then
        .ok (some (.symbol lineNum (String.mk [c])), rest.dropWhile isPyWS, false)
      else if c.isDigit then
        let digits := line1.takeWhile Char.isDigit
        let rest1 := (line1.dropWhile Char.isDigit).dropWhile isPyWS
        .ok (some (.integerConstant lineNum (String.mk digits)), rest1, false)
      else if c = '"' then
        let payload := rest.takeWhile isStrClass
        match rest.dropWhile isStrClass with
        | '"' :: rest1 =>
          .ok (some (.stringConstant lineNum (String.mk payload)), rest1.dropWhile isPyWS, false)
        | _ => .error (.tokenizeError lineNum (String.mk line1))
      else
        .error (.tokenizeError lineNum (String.mk line1))
    | [] => .error (.tokenizeError lineNum "")

/-- `gen_tokens_for_line`: repeat `_parse_token` while the line is nonempty.
`None` results (comments) are dropped, as `gen_tokens_for_lines` does. -/
def genTokensForLine : Nat → List Char → Nat → Bool → Except TokErr (List Token × Bool)
  | 0, _, _, _ => .error .outOfFuel
  | fuel + 1, line, lineNum, inComment =>
    if line.isEmpty then .ok ([], inComment)
    else
      match parseToken line lineNum inComment with
      | .error e => .error e
      | .ok (tok?, rest, inC) =>
        match genTokensForLine fuel rest lineNum inC with
        | .error e => .error e
        | .ok (toks, inCf) =>
          .ok ((match tok? with | some t => [t] | none => []) ++ toks, inCf)

/-! ## parser.py — AST -/

mutual

/-- `Term` node hierarchy from parser.py. -/
inductive Term
  | ConstantTerm (lineNum : Nat) (value : Token)
  | VarTerm (lineNum : Nat) (name : Token)
  | VarIndexTerm (lineNum : Nat) (name : Token) (index : Expression)
  | SubroutineCallTerm (lineNum : Nat) (qualifier : Option Token) (name : Token)
      (arguments : List Expression)
  | ParenTerm (lineNum : Nat) (expression : Expression)
  | UnaryOpTerm (lineNum : Nat) (op : Token) (term : Term)

/-- `Expression { line_num, term, tail }` from parser.py. -/
inductive Expression
  | mk (lineNum : Nat) (term : Term) (tail : List (Token × Term))

end

mutual

/-- `Statement` node hierarchy from parser.py.  `IfStatement.false_statements`
is dynamically typed in the source: `parse_if_statement` stores a `Statements`
node when an `else` is present and a plain Python list `[]` otherwise;
`StatementsOrList` records which one it is. -/
inductive Statement
  | LetStatement (lineNum : Nat) (name : Token) (idxExpression : Option Expression)
      (expression : Expression)
  | IfStatement (lineNum : Nat) (condition : Expression) (trueStatements : Statements)
      (falseStatements : StatementsOrList)
  | WhileStatement (lineNum : Nat) (condition : Expression) (body : Statements)
  | DoStatement (lineNum : Nat) (term : Term)
  | ReturnStatement (lineNum : Nat) (expression : Option Expression)

/-- `Statements { line_num, statements }` from parser.py. -/
inductive Statements
  | mk (lineNum : Nat) (statements : List Statement)

/-- The two runtime types that `IfStatement.false_statements` can carry. -/
inductive StatementsOrList
  | node (s : Statements)
  | pylist (l : List Statement)

end

/-- `.line_num` of a term. -/
def Term.lineNum : Term → Nat
  | .ConstantTerm n _ => n
  | .VarTerm n _ => n
  | .VarIndexTerm n _ _ => n
  | .SubroutineCallTerm n _ _ _ => n
  | .ParenTerm n _ => n
  | .UnaryOpTerm n _ _ => n

/-- `.statements` attribute of a `Statements` node. -/
def Statements.statements : Statements → List Statement
  | .mk _ s => s

/-! ## parser.py — recursive descent -/

/-- Parser failure modes: `ParseError`, `StopIteration` from an exhausted
token stream, and an out-of-fuel marker for the fuelled recursion. -/
inductive ParseErr
  | parseError (msg : String)
  | stopIteration
  | outOfFuel
deriving DecidableEq, Repr

/-- The five token classes used by `Parser._is_type` isinstance checks. -/
inductive TokClass
  | keywordC
  | symbolC
  | identifierC
  | integerC
  | stringC
deriving DecidableEq, Repr

/-- Runtime class of a token. -/
def tokClassOf : Token → TokClass
  | .keyword _ _ => .keywordC
  | .symbol _ _ => .symbolC
  | .identifier _ _ => .identifierC
  | .integerConstant _ _ => .integerC
  | .stringConstant _ _ => .stringC

/-- `Parser._is_type`: the isinstance check, plus membership of `tok.value`
in `values` when `values` is nonempty. -/
def isType (tok : Token) (tt : TokClass) (values : List String) : Bool :=
  if tokClassOf tok = tt then
    if values.isEmpty then true else values.contains tok.value
  else false

/-- `Parser._peek` on the modelled token stream (a list). -/
def peekT (ts : List Token) : Except ParseErr Token :=
  match ts with
  | [] => .error .stopIteration
  | t :: _ => .ok t

/-- `Parser._parse_next`: peek, check `_is_type`, consume. -/
def parseNext (ts : List Token) (tt : TokClass) (values : List String) :
    Except ParseErr (Token × List Token) :=
  match ts with
  | [] => .error .stopIteration
  | tok :: rest =>
    if isType tok tt values then .ok (tok, rest)
    else .error (.parseError "Expected token of another class or value")

/-- The nine binary operators accepted by `_parse_expression_tail`. -/
def BINARY_OPS : List String := ["+", "-", "*", "/", "&", "|", "<", ">", "="]

mutual

/-- `Parser.parse_expression`. -/
def parseExpression : Nat → List Token → Except ParseErr (Expression × List Token)
  | 0, _ => .error .outOfFuel
  | fuel + 1, ts => do
    let (term, ts1) ← parseTerm fuel ts
    let (tail, ts2) ← parseExpressionTail fuel ts1
    .ok (Expression.mk term.lineNum term tail, ts2)

/-- `Parser.parse_term`. -/
def parseTerm : Nat → List Token → Except ParseErr (Term × List Token)
  | 0, _ => .error .outOfFuel
  | fuel + 1, ts => do
    let tok ← peekT ts
    if isType tok .integerC [] then
      .ok (Term.ConstantTerm tok.lineNum tok, ts.tail)
    else if isType tok .stringC [] then
      .ok (Term.ConstantTerm tok.lineNum tok, ts.tail)
    else if isType tok .keywordC ["true", "false", "null", "this"] then
      .ok (Term.ConstantTerm tok.lineNum tok, ts.tail)
    else if isType tok .identifierC [] then
      parseTermWithIdentifier fuel ts
    else if isType tok .symbolC ["("] then do
      let (e, ts1) ← parseExpression fuel ts.tail
      let (_, ts2) ← parseNext ts1 .symbolC [")"]
      .ok (Term.ParenTerm tok.lineNum e, ts2)
    else if isType tok .symbolC ["-", "~"] then do
      let (sub, ts1) ← parseTerm fuel ts.tail
      .ok (Term.UnaryOpTerm tok.lineNum tok sub, ts1)
    else
      .error (.parseError "Unexpected token")

/-- `Parser._parse_term_with_identifier`. -/
def parseTermWithIdentifier : Nat → List Token → Except ParseErr (Term × List Token)
  | 0, _ => .error .outOfFuel
  | fuel + 1, ts => do
    let (ident, ts1) ← parseNext ts .identifierC []
    let tok ← peekT ts1
    if isType tok .symbolC ["["] then do
      let (idx, ts2) ← parseExpression fuel ts1.tail
      let (_, ts3) ← parseNext ts2 .symbolC ["]"]
      .ok (Term.VarIndexTerm ident.lineNum ident idx, ts3)
    else if isType tok .symbolC ["(", "."] then
      parseSubroutineCall fuel ident ts1
    else
      .ok (Term.VarTerm ident.lineNum ident, ts1)

/-- `Parser._parse_subroutine_call` (the identifier was already consumed). -/
def parseSubroutineCall : Nat → Token → List Token → Except ParseErr (Term × List Token)
  | 0, _, _ => .error .outOfFuel
  | fuel + 1, ident, ts => do
    let tok ← peekT ts
    if isType tok .symbolC ["("] then do
      let (args, ts1) ← parseArgumentList fuel ts
      .ok (Term.SubroutineCallTerm ident.lineNum none ident args, ts1)
    else if isType tok .symbolC ["."] then do
      let (nm, ts1) ← parseNext ts.tail .identifierC []
      let (args, ts2) ← parseArgumentList fuel ts1
      .ok (Term.SubroutineCallTerm ident.lineNum (some ident) nm args, ts2)
    else
      .error (.parseError "Unexpected token")

/-- `Parser._parse_argument_list`: consume `(`, loop, consume `)`. -/
def parseArgumentList : Nat → List Token → Except ParseErr (List Expression × List Token)
  | 0, _ => .error .outOfFuel
  | fuel + 1, ts => do
    let (_, ts1) ← parseNext ts .symbolC ["("]
    let (args, ts2) ← parseArgsLoop fuel ts1
    let (_, ts3) ← parseNext ts2 .symbolC [")"]
    .ok (args, ts3)

/-- The `while True` body of `_parse_argument_list`: stop at `)`, skip a
comma when one is next, then parse an expression — note no comma is ever
required between expressions. -/
def parseArgsLoop : Nat → List Token → Except ParseErr (List Expression × List Token)
  | 0, _ => .error .outOfFuel
  | fuel + 1, ts => do
    let tok ← peekT ts
    if isType tok .symbolC [")"] then
      .ok ([], ts)
    else if isType tok .symbolC [","] then do
      let (e, ts1) ← parseExpression fuel ts.tail
      let (es, ts2) ← parseArgsLoop fuel ts1
      .ok (e :: es, ts2)
    else do
      let (e, ts1) ← parseExpression fuel ts
      let (es, ts2) ← parseArgsLoop fuel ts1
      .ok (e :: es, ts2)

/-- `Parser._parse_expression_tail`. -/
def parseExpressionTail : Nat → List Token →
    Except ParseErr (List (Token × Term) × List Token)
  | 0, _ => .error .outOfFuel
  | fuel + 1, ts => do
    let tok ← peekT ts
    if isType tok .symbolC BINARY_OPS then do
      let (t, ts1) ← parseTerm fuel ts.tail
      let (tl, ts2) ← parseExpressionTail fuel ts1
      .ok ((tok, t) :: tl, ts2)
    else
      .ok ([], ts)

/-- `Parser.parse_statement`: dispatch on the peeked keyword. -/
def parseStatement : Nat → List Token → Except ParseErr (Statement × List Token)
  | 0, _ => .error .outOfFuel
  | fuel + 1, ts => do
    let tok ← peekT ts
    if isType tok .keywordC ["let"] then parseLetStatement fuel ts
    else if isType tok .keywordC ["if"] then parseIfStatement fuel ts
    else if isType tok .keywordC ["while"] then parseWhileStatement fuel ts
    else if isType tok .keywordC ["do"] then parseDoStatement fuel ts
    else if isType tok .keywordC ["return"] then parseReturnStatement fuel ts
    else .error (.parseError "Unexpected token")

/-- `Parser.parse_statements`: `{ statement* }`. -/
def parseStatements : Nat → List Token → Except ParseErr (Statements × List Token)
  | 0, _ => .error .outOfFuel
  | fuel + 1, ts => do
    let (lb, ts1) ← parseNext ts .symbolC ["\x7b"]
    let (stmts, ts2) ← parseStatementsLoop fuel ts1
    let (_, ts3) ← parseNext ts2 .symbolC ["\x7d"]
    .ok (Statements.mk lb.lineNum stmts, ts3)

/-- The `while True` body of `parse_statements`. -/
def parseStatementsLoop : Nat → List Token → Except ParseErr (List Statement × List Token)
  | 0, _ => .error .outOfFuel
  | fuel + 1, ts => do
    let tok ← peekT ts
    if isType tok .symbolC ["\x7d"] then
      .ok ([], ts)
    else do
      let (s, ts1) ← parseStatement fuel ts
      let (ss, ts2) ← parseStatementsLoop fuel ts1
      .ok (s :: ss, ts2)

/-- `Parser.parse_let_statement`. -/
def parseLetStatement : Nat → List Token → Except ParseErr (Statement × List Token)
  | 0, _ => .error .outOfFuel
  | fuel + 1, ts => do
    let (lt, ts1) ← parseNext ts .keywordC ["let"]
    let (nm, ts2) ← parseNext ts1 .identifierC []
    let tok ← peekT ts2
    let (idxE, ts3) ←
      if isType tok .symbolC ["["] then do
        let (e, tsa) ← parseExpression fuel ts2.tail
        let (_, tsb) ← parseNext tsa .symbolC ["]"]
        pure (some e, tsb)
      else
        pure ((none : Option Expression), ts2)
    let (_, ts4) ← parseNext ts3 .symbolC ["="]
    let (e, ts5) ← parseExpression fuel ts4
    let (_, ts6) ← parseNext ts5 .symbolC [";"]
    .ok (Statement.LetStatement lt.lineNum nm idxE e, ts6)

/-- `Parser.parse_if_statement`: with no `else`, `false_statements` is the
plain Python list `[]`, not a `Statements` node. -/
def parseIfStatement : Nat → List Token → Except ParseErr (Statement × List Token)
  | 0, _ => .error .outOfFuel
  | fuel + 1, ts => do
    let (it, ts1) ← parseNext ts .keywordC ["if"]
    let (_, ts2) ← parseNext ts1 .symbolC ["("]
    let (cond, ts3) ← parseExpression fuel ts2
    let (_, ts4) ← parseNext ts3 .symbolC [")"]
    let (trueS, ts5) ← parseStatements fuel ts4
    let tok ← peekT ts5
    if isType tok .keywordC ["else"] then do
      let (falseS, ts6) ← parseStatements fuel ts5.tail
      .ok (Statement.IfStatement it.lineNum cond trueS (.node falseS), ts6)
    else
      .ok (Statement.IfStatement it.lineNum cond trueS (.pylist []), ts5)

/-- `Parser.parse_while_statement`. -/
def parseWhileStatement : Nat → List Token → Except ParseErr (Statement × List Token)
  | 0, _ => .error .outOfFuel
  | fuel + 1, ts => do
    let (wt, ts1) ← parseNext ts .keywordC ["while"]
    let (_, ts2) ← parseNext ts1 .symbolC ["("]
    let (cond, ts3) ← parseExpression fuel ts2
    let (_, ts4) ← parseNext ts3 .symbolC [")"]
    let (body, ts5) ← parseStatements fuel ts4
    .ok (Statement.WhileStatement wt.lineNum cond body, ts5)

/-- `Parser.parse_do_statement`. -/
def parseDoStatement : Nat → List Token → Except ParseErr (Statement × List Token)
  | 0, _ => .error .outOfFuel
  | fuel + 1, ts => do
    let (dt, ts1) ← parseNext ts .keywordC ["do"]
    let (ident, ts2) ← parseNext ts1 .identifierC []
    let (callTerm, ts3) ← parseSubroutineCall fuel ident ts2
    let (_, ts4) ← parseNext ts3 .symbolC [";"]
    .ok (Statement.DoStatement dt.lineNum callTerm, ts4)

/-- `Parser.parse_return_statement`. -/
def parseReturnStatement : Nat → List Token → Except ParseErr (Statement × List Token)
  | 0, _ => .error .outOfFuel
  | fuel + 1, ts => do
    let (rt, ts1) ← parseNext ts .keywordC ["return"]
    let tok ← peekT ts1
    if isType tok .symbolC [";"] then
      .ok (Statement.ReturnStatement rt.lineNum none, ts1.tail)
    else do
      let (e, ts2) ← parseExpression fuel ts1
      let (_, ts3) ← parseNext ts2 .symbolC [";"]
      .ok (Statement.ReturnStatement rt.lineNum (some e), ts3)

end

/-! ## code_generator.py -/

/-- Errors raised during code generation: `CodeGeneratorError`,
`SymbolNotFoundError` (from the symbol tables), Python `AttributeError`
for accesses to attributes an AST object does not define, and an
out-of-fuel marker for the fuelled recursion. -/
inductive CGErr
  | codeGeneratorError (msg : String)
  | symbolNotFound (msg : String)
  | attributeError (msg : String)
  | outOfFuel
deriving DecidableEq, Repr

/-- The `.statements` attribute access on `IfStatement.false_statements`
performed by `generate_statement`: succeeds on a `Statements` node, raises
`AttributeError` on the plain list stored by `parse_if_statement` when the
`if` has no `else`. -/
def statementsAttr : StatementsOrList → Except CGErr (List Statement)
  | .node s => .ok s.statements
  | .pylist _ => .error (.attributeError "list object has no attribute statements")

/-- `CodeGenerator._gen_memory_segment`. -/
def genMemorySegment : Kind → String
  | .FIELD => "this"
  | .STATIC => "static"
  | .LOCAL => "local"
  | .ARGUMENT => "argument"

/-- `CodeGenerator._gen_op`. -/
def genOp (op : Token) : Except CGErr (List String) :=
  if op.value = "+" then .ok ["add"]
  else if op.value = "-" then .ok ["sub"]
  else if op.value = "*" then .ok ["call Math.multiply 2"]
  else if op.value = "/" then .ok ["call Math.divide 2"]
  else if op.value = "&" then .ok ["and"]
  else if op.value = "|" then .ok ["or"]
  else if op.value = "<" then .ok ["lt"]
  else if op.value = ">" then .ok ["gt"]
  else if op.value = "=" then .ok ["eq"]
  else .error (.codeGeneratorError "Unknown op")

/-- The LIFO drain of `op_stack` at the end of `generate_expression`:
the operator list is processed in reverse push order. -/
def genOpsPop : List Token → Except CGErr (List String)
  | [] => .ok []
  | op :: rest => do
    let c ← genOp op
    let cs ← genOpsPop rest
    .ok (c ++ cs)

/-- `int(...)` on the decimal digit strings carried by `IntegerConstant`
tokens (the tokenizer and assembler regexes only produce `\d+` payloads). -/
def pyInt (s : String) : Nat :=
  s.data.foldl (fun n c => n * 10 + (c.toNat - '0'.toNat)) 0

mutual

/-- `CodeGenerator.generate_expression`: head term code, then each tail
term's code in order, then the popped operator instructions. -/
def genExpression : Nat → String → List (List Symbol) → Expression →
    Except CGErr (List String)
  | 0, _, _, _ => .error .outOfFuel
  | fuel + 1, cls, tabs, .mk _ term tail => do
    let c ← genTerm fuel cls tabs term
    let cs ← genTailTerms fuel cls tabs tail
    let ops ← genOpsPop (tail.map Prod.fst).reverse
    .ok (c ++ cs ++ ops)

/-- The tail-term loop of `generate_expression`. -/
def genTailTerms : Nat → String → List (List Symbol) → List (Token × Term) →
    Except CGErr (List String)
  | 0, _, _, _ => .error .outOfFuel
  | _ + 1, _, _, [] => .ok []
  | fuel + 1, cls, tabs, (_, t) :: rest => do
    let c ← genTerm fuel cls tabs t
    let cs ← genTailTerms fuel cls tabs rest
    .ok (c ++ cs)

/-- `CodeGenerator.generate_term`.  Note the `VarTerm` branch: the source
reads `term.value.value`, but the `VarTerm` dataclass only defines `name`,
so the access raises `AttributeError`. -/
def genTerm : Nat → String → List (List Symbol) → Term → Except CGErr (List String)
  | 0, _, _, _ => .error .outOfFuel
  | fuel + 1, cls, tabs, t =>
    match t with
    | .ConstantTerm _ v =>
      match v with
      | .integerConstant _ s => .ok ["push constant " ++ toString (pyInt s)]
      | .stringConstant _ s =>
        .ok (["push constant " ++ toString s.length, "call String.new 1"] ++
          (s.data.map (fun c =>
            ["push constant " ++ toString c.toNat, "call String.appendChar 2"])).flatten)
      | .keyword _ kw =>
        if kw = "true" then .ok ["push constant 1", "neg"]
        else if kw = "false" || kw = "null" then .ok ["push constant 0"]
        else if kw = "this" then .ok ["push pointer 0"]
        else .error (.codeGeneratorError "Unknown term")
      | _ => .error (.codeGeneratorError "Unknown term")
    | .VarTerm _ _ =>
      .error (.attributeError "VarTerm object has no attribute value")
    | .VarIndexTerm _ name idx =>
      match tablesLookup tabs name.value with
      | none => .error (.symbolNotFound ("Symbol not found: " ++ name.value))
      | some symbol => do
        let ic ← genExpression fuel cls tabs idx
        .ok (["push " ++ genMemorySegment symbol.kind ++ " " ++ toString symbol.index] ++
             ic ++ ["add", "pop pointer 1", "push that 0"])
    | .SubroutineCallTerm _ _ _ _ => genSubroutineCall fuel cls tabs t
    | .ParenTerm _ e => genExpression fuel cls tabs e
    | .UnaryOpTerm _ op sub => do
      let tc ← genTerm fuel cls tabs sub
      if op.value = "-" then .ok (tc ++ ["neg"])
      else if op.value = "~" then .ok (tc ++ ["not"])
      else .error (.codeGeneratorError "Unknown term")

/-- `CodeGenerator._gen_subroutine_call`.  With no qualifier the call goes to
`cls.N` with the explicit argument count only; a qualifier that resolves to a
class-typed symbol pushes the receiver and adds one to the count; an
unresolved qualifier is a static call.  A non-call term would fail its
`.qualifier` attribute access. -/
def genSubroutineCall : Nat → String → List (List Symbol) → Term →
    Except CGErr (List String)
  | 0, _, _, _ => .error .outOfFuel
  | fuel + 1, cls, tabs, .SubroutineCallTerm _ qualifier name args =>
    match qualifier with
    | some q =>
      match tablesLookup tabs q.value with
      | some symbol =>
        match symbol.type_ with
        | .TypeClassOf cname => do
          let argsCode ← genArgsCode fuel cls tabs args
          .ok (["push " ++ genMemorySegment symbol.kind ++ " " ++ toString symbol.index] ++
               argsCode ++
               ["call " ++ cname ++ "." ++ name.value ++ " " ++ toString (1 + args.length)])
        | _ => .error (.codeGeneratorError "Type has no subroutines")
      | none => do
        let argsCode ← genArgsCode fuel cls tabs args
        .ok (argsCode ++
             ["call " ++ q.value ++ "." ++ name.value ++ " " ++ toString args.length])
    | none => do
      let argsCode ← genArgsCode fuel cls tabs args
      .ok (argsCode ++
           ["call " ++ cls ++ "." ++ name.value ++ " " ++ toString args.length])
  | _ + 1, _, _, _ =>
    .error (.attributeError "term has no attribute qualifier")

/-- The argument loop of `_gen_subroutine_call`: each argument expression's
code, concatenated in order. -/
def genArgsCode : Nat → String → List (List Symbol) → List Expression →
    Except CGErr (List String)
  | 0, _, _, _ => .error .outOfFuel
  | _ + 1, _, _, [] => .ok []
  | fuel + 1, cls, tabs, e :: rest => do
    let c ← genExpression fuel cls tabs e
    let cs ← genArgsCode fuel cls tabs rest
    .ok (c ++ cs)

end

mutual

/-- `CodeGenerator.generate_statement`.  The unique-label counter is
incremented on entry for every statement; the function returns the emitted
code together with the counter value after the statement. -/
def genStatement : Nat → String → List (List Symbol) → Bool → Nat → Statement →
    Except CGErr (List String × Nat)
  | 0, _, _, _, _, _ => .error .outOfFuel
  | fuel + 1, cls, tabs, isVoid, uniq, stmt =>
    match stmt with
    | .LetStatement _ name idxE e =>
      match tablesLookup tabs name.value with
      | none => .error (.symbolNotFound ("Symbol not found: " ++ name.value))
      | some symbol =>
        let seg := genMemorySegment symbol.kind
        match idxE with
        | some idx => do
          let ci ← genExpression fuel cls tabs idx
          let ce ← genExpression fuel cls tabs e
          .ok (["push " ++ seg ++ " " ++ toString symbol.index] ++ ci ++ ["add"] ++ ce ++
               ["pop temp 0", "pop pointer 1", "push temp 0", "pop that 0"], uniq + 1)
        | none => do
          let ce ← genExpression fuel cls tabs e
          .ok (ce ++ ["pop " ++ seg ++ " " ++ toString symbol.index], uniq + 1)
    | .IfStatement _ cond ts fs => do
      let falseLabel := "IF" ++ toString uniq ++ ".FALSE"
      let endLabel := "IF" ++ toString uniq ++ ".END"
      let cc ← genExpression fuel cls tabs cond
      let (tc, u1) ← genStatementList fuel cls tabs isVoid (uniq + 1) ts.statements
      let fsl ← statementsAttr fs
      let (fc, u2) ← genStatementList fuel cls tabs isVoid u1 fsl
      .ok (cc ++ ["not", "if-goto " ++ falseLabel] ++ tc ++
           ["goto " ++ endLabel, "label " ++ falseLabel] ++ fc ++
           ["label " ++ endLabel], u2)
    | .WhileStatement _ cond body => do
      let startLabel := "WHILE" ++ toString uniq ++ ".START"
      let endLabel := "WHILE" ++ toString uniq ++ ".END"
      let cc ← genExpression fuel cls tabs cond
      let (bc, u1) ← genStatementList fuel cls tabs isVoid (uniq + 1) body.statements
      .ok (["label " ++ startLabel] ++ cc ++ ["not", "if-goto " ++ endLabel] ++ bc ++
           ["goto " ++ startLabel, "label " ++ endLabel], u1)
    | .DoStatement _ term => do
      let c ← genSubroutineCall fuel cls tabs term
      .ok (c ++ ["pop temp 0"], uniq + 1)
    | .ReturnStatement _ e? =>
      if isVoid then
        match e? with
        | some _ => .error (.codeGeneratorError "void subroutine cannot return a value")
        | none => .ok (["push constant 0", "return"], uniq + 1)
      else
        match e? with
        | some e => do
          let c ← genExpression fuel cls tabs e
          .ok (c ++ ["return"], uniq + 1)
        | none =>
          .error (.codeGeneratorError "Expected subroutine to either be void or return a value")

/-- Sequential generation of a statement list, threading the label counter. -/
def genStatementList : Nat → String → List (List Symbol) → Bool → Nat →
    List Statement → Except CGErr (List String × Nat)
  | 0, _, _, _, _, _ => .error .outOfFuel
  | _ + 1, _, _, _, uniq, [] => .ok ([], uniq)
  | fuel + 1, cls, tabs, isVoid, uniq, s :: rest => do
    let (c, u1) ← genStatement fuel cls tabs isVoid uniq s
    let (cs, u2) ← genStatementList fuel cls tabs isVoid u1 rest
    .ok (c ++ cs, u2)

end

/-! ## vm_translator.py — CodeGenerator -/

/-- Errors of the VM translator: `RuntimeError` and `InvalidArgumentError`. -/
inductive VMErr
  | runtimeError (msg : String)
  | invalidArgumentError (msg : String)
deriving DecidableEq, Repr

/-- `"\n".join(lines)`. -/
def joinNL : List String → String
  | [] => ""
  | [x] => x
  | x :: xs => x ++ "\n" ++ joinNL xs

/-- `CodeGenerator._push_d_sp_inc`. -/
def pushDSpInc : List String :=
  ["@SP  // RAM[*SP]=D", "A=M", "M=D", "@SP  // SP++", "M=M+1"]

/-- `CodeGenerator._sp_dec_pop_d`. -/
def spDecPopD : List String :=
  ["@SP  // SP-- and D=RAM[*SP]", "AM=M-1", "D=M"]

/-- `CodeGenerator._translate_memory_segment`; `none` for the segments the
source would reject with `RuntimeError` (never reached from the callers,
which test membership in the same four segments first). -/
def translateMemorySegment : String → Option String
  | "local" => some "LCL"
  | "argument" => some "ARG"
  | "this" => some "THIS"
  | "that" => some "THAT"
  | _ => none

/-- `CodeGenerator._push_constant`. -/
def pushConstant (argument : Nat) : List String :=
  (if argument = 0 || argument = 1 then
    ["D=" ++ toString argument ++ "  // D=" ++ toString argument]
  else
    ["@" ++ toString argument ++ "  // D=" ++ toString argument, "D=A"]) ++ pushDSpInc

/-- `CodeGenerator.generate_push`.  The out-of-range guards for `pointer`
and `temp` are the source's chained comparisons `0 > argument > 1` and
`0 > argument > 7`, which require `argument` to be simultaneously below 0
and above the bound. -/
def generate_push (staticPref : Option String) (verbose : Bool)
    (memorySegment : String) (argument : Nat) : Except VMErr String :=
  match staticPref with
  | none => .error (.runtimeError "static_prefix not set")
  | some pre =>
    let lines : List String :=
      if verbose then ["// push " ++ memorySegment ++ " " ++ toString argument] else []
    match translateMemorySegment memorySegment with
    | some translated =>
      .ok (joinNL (lines ++
        ["@" ++ toString argument ++ "  // D=RAM[*" ++ translated ++ " + " ++
           toString argument ++ "]",
         "D=A", "@" ++ translated, "A=D+M", "D=M"] ++ pushDSpInc))
    | none =>
      if memorySegment = "static" then
        .ok (joinNL (lines ++ ["@" ++ pre ++ "." ++ toString argument, "D=M"] ++ pushDSpInc))
      else if memorySegment = "constant" then
        .ok (joinNL (lines ++ pushConstant argument))
      else if memorySegment = "pointer" then
        if 0 > argument ∧ argument > 1 then
          .error (.invalidArgumentError ("pointer argument: " ++ toString argument))
        else
          let registerNum := argument + 3
          .ok (joinNL (lines ++
            ["@R" ++ toString registerNum ++ "  // D=R" ++ toString registerNum, "D=M"] ++
            pushDSpInc))
      else if memorySegment = "temp" then
        if 0 > argument ∧ argument > 7 then
          .error (.invalidArgumentError ("temp argument: " ++ toString argument))
        else
          let registerNum := argument + 5
          .ok (joinNL (lines ++
            ["@R" ++ toString registerNum ++ "  // D=R" ++ toString registerNum, "D=M"] ++
            pushDSpInc))
      else
        .error (.runtimeError ("Unexpected memory segment: " ++ memorySegment))

/-- `CodeGenerator.generate_pop`, with the same dead chained-comparison
guards as `generate_push`; `pop constant` does raise `InvalidArgumentError`. -/
def generate_pop (staticPref : Option String) (verbose : Bool)
    (memorySegment : String) (argument : Nat) : Except VMErr String :=
  match staticPref with
  | none => .error (.runtimeError "static_prefix not set")
  | some pre =>
    let lines : List String :=
      if verbose then ["// pop " ++ memorySegment ++ " " ++ toString argument] else []
    match translateMemorySegment memorySegment with
    | some translated =>
      .ok (joinNL (lines ++
        ["@" ++ toString argument ++ "  // R13=*" ++ translated ++ " + " ++
           toString argument,
         "D=A", "@" ++ translated, "D=D+M", "@R13", "M=D"] ++ spDecPopD ++
        ["@R13  // RAM[*R13]=D", "A=M", "M=D"]))
    | none =>
      if memorySegment = "static" then
        .ok (joinNL (lines ++ spDecPopD ++ ["@" ++ pre ++ "." ++ toString argument, "M=D"]))
      else if memorySegment = "pointer" then
        if 0 > argument ∧ argument > 1 then
          .error (.invalidArgumentError ("pointer argument: " ++ toString argument))
        else
          let registerNum := argument + 3
          .ok (joinNL (lines ++ spDecPopD ++
            ["@R" ++ toString registerNum ++ "  // R" ++ toString registerNum ++ "=D", "M=D"]))
      else if memorySegment = "temp" then
        if 0 > argument ∧ argument > 7 then
          .error (.invalidArgumentError ("temp argument: " ++ toString argument))
        else
          let registerNum := argument + 5
          .ok (joinNL (lines ++ spDecPopD ++
            ["@R" ++ toString registerNum ++ "  // R" ++ toString registerNum ++ "=D", "M=D"]))
      else if memorySegment = "constant" then
        .error (.invalidArgumentError "cannot have argument 'pop constant'")
      else
        .error (.runtimeError ("Unexpected memory segment: " ++ memorySegment))

/-- `CodeGenerator.generate_label`: the whole output, label line included,
is built only under `self._verbose`. -/
def generate_label (verbose : Bool) (currentFnName symbol : String) : String :=
  let label := currentFnName ++ "$" ++ symbol
  joinNL (if verbose then ["// label " ++ label, "(" ++ label ++ ")"] else [])

/-- `CodeGenerator.generate_goto`: the whole output, jump included, is built
only under `self._verbose`. -/
def generate_goto (verbose : Bool) (currentFnName symbol : String) : String :=
  let label := currentFnName ++ "$" ++ symbol
  joinNL (if verbose then ["// goto " ++ label, "@" ++ label, "0; JMP"] else [])

/-! ## assembler.py -/

/-- The parsed statement variants of assembler.py (`Symbol` there is the
label pseudo-instruction; renamed to avoid the symbol-table `Symbol`). -/
inductive AsmInstruction
  | AInstructionNumeric (address : Nat) (srcLineNum : Nat)
  | AInstructionSymbolic (symbol : String) (srcLineNum : Nat)
  | CInstruction (dest : Option String) (comp : String) (jump : Option String)
      (srcLineNum : Nat)
  | LabelSymbol (symbol : String) (srcLineNum : Nat)
  | NoneLine (srcLineNum : Nat)
deriving DecidableEq, Repr

/-- `comp_table` from `create_machine_code_tables` (dict order preserved;
note the source maps both `-A` and `-M` to `0110011`). -/
def compTable : List (String × String) :=
  [("0", "0101010"), ("1", "0111111"), ("-1", "0111010"), ("D", "0001100"),
   ("A", "0110000"), ("M", "1110000"), ("!D", "0001101"), ("!A", "0110001"),
   ("!M", "1110001"), ("-D", "0001111"), ("-A", "0110011"), ("-M", "0110011"),
   ("D+1", "0011111"), ("A+1", "0110111"), ("M+1", "1110111"), ("D-1", "0001110"),
   ("A-1", "0110010"), ("M-1", "1110010"), ("D+A", "0000010"), ("D+M", "1000010"),
   ("D-A", "0010011"), ("D-M", "1010011"), ("A-D", "0000111"), ("M-D", "1000111"),
   ("D&A", "0000000"), ("D&M", "1000000"), ("D|A", "0010101"), ("D|M", "1010101")]

/-- Dict lookup in `comp_table`; `none` is the `KeyError`. -/
def compLookup (s : String) : Option String :=
  (compTable.find? (fun p => p.1 = s)).map (fun p => p.2)

/-- `dest_table` (keyed by `None` or the dest mnemonic). -/
def destLookup : Option String → Option String
  | none => some "000"
  | some "M" => some "001"
  | some "D" => some "010"
  | some "MD" => some "011"
  | some "A" => some "100"
  | some "AM" => some "101"
  | some "AD" => some "110"
  | some "AMD" => some "111"
  | some _ => none

/-- `jump_table` (keyed by `None` or the jump mnemonic). -/
def jumpLookup : Option String → Option String
  | none => some "000"
  | some "JGT" => some "001"
  | some "JEQ" => some "010"
  | some "JGE" => some "011"
  | some "JLT" => some "100"
  | some "JNE" => some "101"
  | some "JLE" => some "110"
  | some "JMP" => some "111"
  | some _ => none

/-- Binary digits of `n`, most significant first (empty for 0), with
structural fuel: 16 suffices for any address the format is used on. -/
def binDigits : Nat → Nat → List Char
  | 0, _ => []
  | fuel + 1, n =>
    if n = 0 then []
    else binDigits fuel (n / 2) ++ [if n % 2 = 1 then '1' else '0']

/-- Python `f"{address:015b}"`: binary, zero-padded on the left to width 15. -/
def binPad15 (n : Nat) : String :=
  let s := if n = 0 then ['0'] else binDigits 16 n
  String.mk (List.replicate (15 - s.length) '0' ++ s)

/-- `^\s*(//.*)?$` — only whitespace, optionally followed by a `//` comment. -/
def isEndOrComment (cs : List Char) : Bool :=
  match cs.dropWhile isPyWS with
  | [] => true
  | '/' :: '/' :: _ => true
  | _ => false

/-- `parse_a_instruction_numeric`: `^\s*@(\d+)\s*(//.*)?$`. -/
def parseAInstructionNumeric (cs : List Char) : Option Nat :=
  match cs.dropWhile isPyWS with
  | '@' :: rest =>
    let digits := rest.takeWhile Char.isDigit
    if digits.isEmpty then none
    else if isEndOrComment (rest.dropWhile Char.isDigit) then
      some (pyInt (String.mk digits))
    else none
  | _ => none

/-- `[a-zA-Z\d_\.:$]`, the trailing characters of the assembler's symbolic
`@` operand. -/
def isAsmSymChar (c : Char) : Bool :=
  c.isAlpha || c.isDigit || c = '_' || c = '.' || c = ':' || c = '$'

/-- `parse_a_instruction_symbolic`: `^\s*@([a-zA-Z][a-zA-Z\d_\.:$]*)\s*(//.*)?$`. -/
def parseAInstructionSymbolic (cs : List Char) : Option String :=
  match cs.dropWhile isPyWS with
  | '@' :: c :: rest =>
    if c.isAlpha then
      let tailChars := rest.takeWhile isAsmSymChar
      if isEndOrComment (rest.dropWhile isAsmSymChar) then
        some (String.mk (c :: tailChars))
      else none
    else none
  | _ => none

/-- `[AMD]`, the dest character class. -/
def isAMD (c : Char) : Bool := c = 'A' || c = 'M' || c = 'D'

/-- `[1AMD]`, the first comp character class. -/
def isG1 (c : Char) : Bool := c = '1' || isAMD c

/-- `[+\-!&|]`, the comp operator class. -/
def isOpChar (c : Char) : Bool := c = '+' || c = '-' || c = '!' || c = '&' || c = '|'

/-- `[01AMD]`, the final comp character class. -/
def isG3 (c : Char) : Bool := c = '0' || c = '1' || isAMD c

/-- The dest stage of `parse_c_instruction`:
`^\s*(([AMD]{1,3})\s*=)?(.*)$`.  The optional group is matched greedily
(3, 2 then 1 dest characters, each followed by `\s*=`); when it fails the
whole remainder is passed on with `dest = None`. -/
def destStage (cs : List Char) : Option String × List Char :=
  let cs1 := cs.dropWhile isPyWS
  let tryLen : Nat → Option (String × List Char) := fun n =>
    let ds := cs1.take n
    if ds.length = n ∧ ds.all isAMD then
      match (cs1.drop n).dropWhile isPyWS with
      | '=' :: rest => some (String.mk ds, rest)
      | _ => none
    else none
  match tryLen 3 with
  | some (d, r) => (some d, r)
  | none =>
    match tryLen 2 with
    | some (d, r) => (some d, r)
    | none =>
      match tryLen 1 with
      | some (d, r) => (some d, r)
      | none => (none, cs1)

/-- The `([+\-!&|]?)\s*([01AMD])` part of the comp regex, with the regex's
backtracking: an operator character is taken greedily, and dropped again when
no `[01AMD]` follows it. -/
def compG23 (cs : List Char) : Option (String × List Char) :=
  let noOp : Option (String × List Char) :=
    match cs with
    | d :: r => if isG3 d then some (String.mk [d], r) else none
    | [] => none
  match cs with
  | c :: rest =>
    if isOpChar c then
      match rest.dropWhile isPyWS with
      | d :: r =>
        if isG3 d then some (String.mk [c, d], r) else noOp
      | [] => noOp
    else noOp
  | [] => none

/-- The comp stage of `parse_c_instruction`:
`^\s*([1AMD]?)\s*([+\-!&|]?)\s*([01AMD])(.*)$` with the greedy optional
`[1AMD]` dropped again when the rest of the pattern cannot follow it. -/
def compStage (cs : List Char) : Option (String × List Char) :=
  let cs1 := cs.dropWhile isPyWS
  let noG1 : Option (String × List Char) := compG23 cs1
  match cs1 with
  | c :: rest =>
    if isG1 c then
      match compG23 (rest.dropWhile isPyWS) with
      | some (g23, r) => some (String.mk [c] ++ g23, r)
      | none => noG1
    else noG1
  | [] => none

/-- The seven jump mnemonics, in the regex's alternation order. -/
def takeJump (cs : List Char) : Option (String × List Char) :=
  match cs with
  | a :: b :: c :: rest =>
    let m := String.mk [a, b, c]
    if ["JGT", "JEQ", "JGE", "JLT", "JNE", "JLE", "JMP"].contains m then
      some (m, rest)
    else none
  | _ => none

/-- The jump stage of `parse_c_instruction`:
`^\s*(;\s*(JGT|JEQ|JGE|JLT|JNE|JLE|JMP))?\s*(//.*)?$`. -/
def jumpStage (cs : List Char) : Option (Option String) :=
  let cs1 := cs.dropWhile isPyWS
  let noJump : Option (Option String) := if isEndOrComment cs1 then some none else none
  match cs1 with
  | ';' :: rest =>
    match takeJump (rest.dropWhile isPyWS) with
    | some (j, after) => if isEndOrComment after then some (some j) else noJump
    | none => noJump
  | _ => noJump

/-- `parse_c_instruction`: the three staged regexes; `none` is the
`ParseError` that makes `parse_statement` try the next alternative. -/
def parseCInstruction (cs : List Char) : Option (Option String × String × Option String) :=
  let (dest, cs1) := destStage cs
  match compStage cs1 with
  | none => none
  | some (comp, cs2) =>
    match jumpStage cs2 with
    | none => none
    | some j => some (dest, comp, j)

/-- `[a-zA-Z\d_\.$]`, the trailing characters of a label name (no `:`). -/
def isAsmLabelChar (c : Char) : Bool :=
  c.isAlpha || c.isDigit || c = '_' || c = '.' || c = '$'

/-- `parse_symbol`: `^\s*\(([a-zA-Z][a-zA-Z\d_\.$]*)\)\s*(//.*)?$`. -/
def parseLabelSymbol (cs : List Char) : Option String :=
  match cs.dropWhile isPyWS with
  | '(' :: c :: rest =>
    if c.isAlpha then
      let tailChars := rest.takeWhile isAsmLabelChar
      match rest.dropWhile isAsmLabelChar with
      | ')' :: after =>
        if isEndOrComment after then some (String.mk (c :: tailChars)) else none
      | _ => none
    else none
  | _ => none

/-- `parse_statement`: try the five line parsers in order. -/
def parseAsmStatement (line : String) (lineNum : Nat) : Option AsmInstruction :=
  let cs := line.data
  match parseAInstructionNumeric cs with
  | some n => some (.AInstructionNumeric n lineNum)
  | none =>
    match parseAInstructionSymbolic cs with
    | some s => some (.AInstructionSymbolic s lineNum)
    | none =>
      match parseCInstruction cs with
      | some (d, c, j) => some (.CInstruction d c j lineNum)
      | none =>
        match parseLabelSymbol cs with
        | some s => some (.LabelSymbol s lineNum)
        | none =>
          if isEndOrComment cs then some (.NoneLine lineNum) else none

/-- The per-instruction body of `gen_machine_code`: numeric A-instructions
become `0` + 15-bit binary, C-instructions become `111` + comp + dest + jump
(a missing table key raises `ParseError`); other variants are the
`RuntimeError` branch. -/
def genMachineCodeOne : AsmInstruction → Option String
  | .AInstructionNumeric a _ => some ("0" ++ binPad15 a)
  | .CInstruction d c j _ =>
    match compLookup c, destLookup d, jumpLookup j with
    | some cb, some db, some jb => some ("111" ++ cb ++ db ++ jb)
    | _, _, _ => none
  | _ => none

/-- One source line through `parse_statement` and `gen_machine_code` (for
lines that need no symbol resolution). -/
def assembleLine (line : String) : Option String :=
  match parseAsmStatement line 0 with
  | some instr => genMachineCodeOne instr
  | none => none

/-! ## Auxiliary definitions for the claims -/

/-- Table invariant relating `nextIndex` to the per-kind entry count. -/
def Inv (t : List Symbol) : Prop :=
  ∀ k, nextIndex t k = countOfKind t k

/-- C1 input: the unqualified call `foo(5)` inside class `Main`. -/
def c1CallTerm : Term :=
  .SubroutineCallTerm 0 none (.identifier 0 "foo")
    [Expression.mk 0 (.ConstantTerm 0 (.integerConstant 0 "5")) []]

/-- C3 input: the token stream of `if (true) { let y = 1; }` followed by the
closing `}` of the enclosing body. -/
def c3Tokens : List Token :=
  [.keyword 0 "if", .symbol 0 "(", .keyword 0 "true", .symbol 0 ")",
   .symbol 0 "\x7b", .keyword 0 "let", .identifier 0 "y", .symbol 0 "=",
   .integerConstant 0 "1", .symbol 0 ";", .symbol 0 "\x7d", .symbol 0 "\x7d"]

/-- C3: the AST `parse_if_statement` builds for `if (true) { let y = 1; }`:
`false_statements` is the plain Python list `[]`. -/
def c3Ast : Statement :=
  .IfStatement 0 (Expression.mk 0 (.ConstantTerm 0 (.keyword 0 "true")) [])
    (Statements.mk 0 [.LetStatement 0 (.identifier 0 "y") none
      (Expression.mk 0 (.ConstantTerm 0 (.integerConstant 0 "1")) [])])
    (.pylist [])

/-- C5 scope: `a`, `i`, `j` as Local 0, 1, 2. -/
def c5Tabs : List (List Symbol) :=
  [[⟨"a", .TypeInt, .LOCAL, 0⟩, ⟨"i", .TypeInt, .LOCAL, 1⟩, ⟨"j", .TypeInt, .LOCAL, 2⟩]]

/-- C5 input: the AST of `let a[i] = a[j];`. -/
def c5Stmt : Statement :=
  .LetStatement 0 (.identifier 0 "a")
    (some (Expression.mk 0 (.VarTerm 0 (.identifier 0 "i")) []))
    (Expression.mk 0 (.VarIndexTerm 0 (.identifier 0 "a")
      (Expression.mk 0 (.VarTerm 0 (.identifier 0 "j")) [])) [])

/-- C7 counterexample input: `return x.foo();` where `x` is an `int` Local. -/
def c7BadReturn : Statement :=
  .ReturnStatement 0 (some (Expression.mk 0
    (.SubroutineCallTerm 0 (some (.identifier 0 "x")) (.identifier 0 "foo") []) []))

/-- C7 witness input: the expression `1`. -/
def c7One : Expression :=
  Expression.mk 0 (.ConstantTerm 0 (.integerConstant 0 "1")) []

/-- C8 witness input: three declarations, two of them Local. -/
def c8Demo : List (String × Type_ × Kind) :=
  [("x", .TypeInt, .LOCAL), ("y", .TypeInt, .ARGUMENT), ("z", .TypeInt, .LOCAL)]

/-- C9 inputs: token streams of `f(1 2);` and `f(,1);`. -/
def c9TokensNoComma : List Token :=
  [.identifier 0 "f", .symbol 0 "(", .integerConstant 0 "1",
   .integerConstant 0 "2", .symbol 0 ")", .symbol 0 ";"]

/-- C9: tokens of `f(,1);`. -/
def c9TokensLeadingComma : List Token :=
  [.identifier 0 "f", .symbol 0 "(", .symbol 0 ",",
   .integerConstant 0 "1", .symbol 0 ")", .symbol 0 ";"]

/-! ## Helper lemmas -/

/-- The defining equation of `nextIndex`, for targeted rewriting. -/
theorem nextIndex_def (t : List Symbol) (k : Kind) :
    nextIndex t k =
      (t.filterMap (fun s => if s.kind = k then some s.index else none)).foldl max (-1) + 1 :=
  rfl

/-- Folding `max` over an appended singleton. -/
theorem foldl_max_singleton (A : List Int) (v : Int) :
    ((A ++ [v]).foldl max (-1)) = max (A.foldl max (-1)) v := by
  rw [List.foldl_append]
  rfl

/-- `nextIndex` after appending a symbol of the queried kind. -/
theorem nextIndex_append_same (t : List Symbol) (s0 : Symbol) (k : Kind)
    (h : s0.kind = k) :
    nextIndex (t ++ [s0]) k = max (nextIndex t k - 1) s0.index + 1 := by
  rw [nextIndex_def, List.filterMap_append]
  have h1 : List.filterMap (fun s => if s.kind = k then some s.index else none) [s0]
      = [s0.index] := by
    simp [h]
  rw [h1, foldl_max_singleton, nextIndex_def, Int.add_sub_cancel]

/-- `nextIndex` after appending a symbol of a different kind. -/
theorem nextIndex_append_other (t : List Symbol) (s0 : Symbol) (k : Kind)
    (h : ¬ s0.kind = k) :
    nextIndex (t ++ [s0]) k = nextIndex t k := by
  rw [nextIndex_def, List.filterMap_append]
  have h1 : List.filterMap (fun s => if s.kind = k then some s.index else none) [s0]
      = [] := by
    simp [h]
  rw [h1, List.append_nil, nextIndex_def]

/-- `countOfKind` after appending one symbol. -/
theorem countOfKind_append_single (t : List Symbol) (s0 : Symbol) (k : Kind) :
    countOfKind (t ++ [s0]) k = countOfKind t k + (if s0.kind = k then 1 else 0) := by
  unfold countOfKind
  rw [List.filter_append]
  by_cases h : s0.kind = k
  · simp [h]
  · simp [h]

/-- `countKind` of a cons. -/
theorem countKind_cons (x : String × Type_ × Kind) (l : List (String × Type_ × Kind))
    (k : Kind) :
    countKind (x :: l) k = (if x.2.2 = k then 1 else 0) + countKind l k := by
  unfold countKind
  by_cases h : x.2.2 = k
  · simp [List.filter_cons, h, Nat.add_comm]
  · simp [List.filter_cons, h]

/-- The invariant holds for the empty table. -/
theorem inv_nil : Inv [] := by
  intro k
  rfl

/-- `SymbolTable.add` preserves the invariant: the new entry's index is the
current per-kind count. -/
theorem inv_step (t : List Symbol) (n : String) (ty : Type_) (k0 : Kind)
    (hInv : Inv t) : Inv (t ++ [⟨n, ty, k0, nextIndex t k0⟩]) := by
  intro k
  by_cases h : k0 = k
  · subst h
    rw [nextIndex_append_same t _ k0 rfl, countOfKind_append_single]
    simp only [if_pos rfl]
    have hc := hInv k0
    rw [hc]
    have hmax : max (countOfKind t k0 - 1) (countOfKind t k0) = countOfKind t k0 :=
      max_eq_right (by omega)
    rw [hmax]
    simp
  · rw [nextIndex_append_other t _ k (by simpa using h), countOfKind_append_single]
    simp only [if_neg (by simpa using h), Int.add_zero]
    exact hInv k

/-- `find?` skips a block where the predicate never holds. -/
theorem find?_append_none {α : Type} (p : α → Bool) (t r : List α)
    (h : ∀ s ∈ t, p s = false) : (t ++ r).find? p = r.find? p := by
  induction t with
  | nil => rfl
  | cons a t ih =>
    have ha : p a = false := h a (by simp)
    simp only [List.cons_append, List.find?_cons, ha]
    exact ih (fun s hs => h s (by simp [hs]))

/-- The generalized induction behind C8: starting from any table satisfying
the invariant, a non-redeclaring sequence of `add`s succeeds, and every added
name looks up to its declared data with index equal to the table's prior
per-kind count plus the number of earlier same-kind adds in the sequence. -/
theorem addAll_ok_lookup (l : List (String × Type_ × Kind)) :
    ∀ t : List Symbol, Inv t →
      (∀ x ∈ l, ∀ s ∈ t, s.name ≠ x.1) →
      (l.map (fun x => x.1)).Nodup →
      ∃ ext : List Symbol,
        addAll t l = .ok (t ++ ext) ∧
        (∀ s ∈ ext, ∃ x ∈ l, s.name = x.1) ∧
        (∀ i : Fin l.length,
          stLookup (t ++ ext) (l.get i).1 =
            some ⟨(l.get i).1, (l.get i).2.1, (l.get i).2.2,
                  countOfKind t (l.get i).2.2 +
                    (countKind (l.take i) (l.get i).2.2 : Int)⟩) := by
  induction l with
  | nil =>
    intro t _ _ _
    refine ⟨[], by simp [addAll], by simp, fun i => absurd i.isLt (by simp)⟩
  | cons x xs ih =>
    intro t hInv hfr hnd
    have hany : t.any (fun s => s.name = x.1) = false := by
      simp only [List.any_eq_false, decide_eq_true_eq]
      intro s hs
      exact hfr x (by simp) s hs
    have hrun1 : stAdd t x.1 x.2.1 x.2.2 = .ok (t ++ [⟨x.1, x.2.1, x.2.2, nextIndex t x.2.2⟩]) := by
      simp [stAdd, hany]
    have hInv1 : Inv (t ++ [⟨x.1, x.2.1, x.2.2, nextIndex t x.2.2⟩]) :=
      inv_step t x.1 x.2.1 x.2.2 hInv
    have hcons := List.nodup_cons.mp
      (show (x.1 :: xs.map (fun y => y.1)).Nodup from hnd)
    have hx_notin : x.1 ∉ xs.map (fun y => y.1) := hcons.1
    have hnd1 : (xs.map (fun y => y.1)).Nodup := hcons.2
    have hfr1 : ∀ y ∈ xs, ∀ s ∈ t ++ [⟨x.1, x.2.1, x.2.2, nextIndex t x.2.2⟩],
        s.name ≠ y.1 := by
      intro y hy s hs
      rcases List.mem_append.mp hs with hst | hs0
      · exact hfr y (by simp [hy]) s hst
      · have hs0' : s = ⟨x.1, x.2.1, x.2.2, nextIndex t x.2.2⟩ := by simpa using hs0
        subst hs0'
        intro hcon
        exact hx_notin (by
          simp only [List.mem_map]
          exact ⟨y, hy, hcon.symm⟩)
    obtain ⟨ext, hAll, hnames, hlook⟩ := ih (t ++ [⟨x.1, x.2.1, x.2.2, nextIndex t x.2.2⟩])
      hInv1 hfr1 hnd1
    refine ⟨⟨x.1, x.2.1, x.2.2, nextIndex t x.2.2⟩ :: ext, ?_, ?_, ?_⟩
    · show addAll t (x :: xs) = _
      simp only [addAll, hrun1]
      rw [hAll]
      simp [List.append_assoc]
    · intro s hs
      rcases List.mem_cons.mp hs with h0 | hmem
      · exact ⟨x, by simp, by simp [h0]⟩
      · obtain ⟨y, hy, hname⟩ := hnames s hmem
        exact ⟨y, by simp [hy], hname⟩
    · intro i
      have hassoc : t ++ (⟨x.1, x.2.1, x.2.2, nextIndex t x.2.2⟩ :: ext)
          = (t ++ [⟨x.1, x.2.1, x.2.2, nextIndex t x.2.2⟩]) ++ ext := by
        simp
      match i with
      | ⟨0, _⟩ =>
        unfold stLookup
        rw [find?_append_none _ t _ (by
          intro s hs
          simp only [decide_eq_false_iff_not]
          exact hfr x (by simp) s hs)]
        have hidx : nextIndex t x.2.2 = countOfKind t x.2.2 := hInv x.2.2
        simp [List.find?_cons, hidx, countKind]
      | ⟨j + 1, hj⟩ =>
        have hj' : j < xs.length := by simpa using hj
        have hget : ((x :: xs).get ⟨j + 1, hj⟩) = xs.get ⟨j, hj'⟩ := rfl
        have hlk := hlook ⟨j, hj'⟩
        rw [hassoc, hget, hlk]
        simp only [Option.some.injEq, Symbol.mk.injEq]
        refine ⟨trivial, trivial, trivial, ?_⟩
        rw [countOfKind_append_single]
        have htake : (x :: xs).take (j + 1) = x :: xs.take j := rfl
        rw [htake, countKind_cons]
        push_cast
        by_cases h : x.2.2 = (xs.get ⟨j, hj'⟩).2.2
        · simp only [h, if_pos rfl]
          omega
        · simp only [if_neg h]
          omega

/-- `takeWhile` passes over a block where the predicate always holds. -/
theorem takeWhile_append_all {p : Char → Bool} (l r : List Char)
    (h : ∀ c ∈ l, p c = true) : (l ++ r).takeWhile p = l ++ r.takeWhile p := by
  induction l with
  | nil => simp
  | cons a l ih =>
    have ha := h a (by simp)
    simp [List.takeWhile_cons, ha, ih (fun c hc => h c (by simp [hc]))]

/-- `dropWhile` passes over a block where the predicate always holds. -/
theorem dropWhile_append_all {p : Char → Bool} (l r : List Char)
    (h : ∀ c ∈ l, p c = true) : (l ++ r).dropWhile p = r.dropWhile p := by
  induction l with
  | nil => simp
  | cons a l ih =>
    have ha := h a (by simp)
    simp [List.dropWhile_cons, ha, ih (fun c hc => h c (by simp [hc]))]

/-! ## Claims -/

/-- C1: at the unqualified call `foo(5)` inside class `Main`,
`_gen_subroutine_call` emits `push constant 5; call Main.foo 1` — no
`push pointer 0` receiver push and an argument count of `k`, not `k+1`,
contradicting the claimed (and standard) method-call convention. -/
theorem c1_unqualified_call_without_this :
    genSubroutineCall 100 "Main" [[]] c1CallTerm =
      .ok ["push constant 5", "call Main.foo 1"] := rfl

/-- C2: `push pointer 2` and `pop temp 8` do not raise
`InvalidArgumentError`; the chained-comparison guards are dead and the
translator emits direct-register assembly (`@R5`, `@R13`). -/
theorem c2_out_of_range_emits_assembly :
    generate_push (some "Foo") true "pointer" 2 =
      .ok "// push pointer 2\n@R5  // D=R5\nD=M\n@SP  // RAM[*SP]=D\nA=M\nM=D\n@SP  // SP++\nM=M+1" ∧
    generate_pop (some "Foo") true "temp" 8 =
      .ok "// pop temp 8\n@SP  // SP-- and D=RAM[*SP]\nAM=M-1\nD=M\n@R13  // R13=D\nM=D" :=
  ⟨rfl, rfl⟩

/-- C3: parsing `if (true) { let y = 1; }` (no else) stores the plain list
`[]` in `false_statements`, and code generation for the resulting statement
raises `AttributeError` on the `.statements` access instead of succeeding
with an empty else-block. -/
theorem c3_if_without_else_attribute_error :
    parseIfStatement 100 c3Tokens = .ok (c3Ast, [Token.symbol 0 "\x7d"]) ∧
    genStatement 100 "Main" [[⟨"y", Type_.TypeInt, Kind.LOCAL, 0⟩]] true 0 c3Ast =
      .error (.attributeError "list object has no attribute statements") :=
  ⟨rfl, rfl⟩

/-- C4 counterexample: the payload `hi!` contains no newline and no double
quote, yet the line fails to tokenize (`!` is outside the regex class
`[a-zA-Z\d?\s:]`), refuting the claim that such payloads yield a
StringConstant. -/
theorem c4_counterexample :
    genTokensForLine 100 "\"hi!\"".data 0 false =
      .error (.tokenizeError 0 "\"hi!\"") := rfl

/-- C4 (amended): when the tokenizer reaches a double-quoted literal whose
payload consists only of letters, digits, `?`, `:` and whitespace, it yields
a StringConstant token whose value is exactly that payload. -/
theorem c4_string_class_payload (payload rest : List Char) (ln : Nat)
    (h : ∀ c ∈ payload, isStrClass c = true) :
    parseToken ('"' :: (payload ++ '"' :: rest)) ln false =
      .ok (some (.stringConstant ln (String.mk payload)), rest.dropWhile isPyWS, false) := by
  have hq : isStrClass '"' = false := rfl
  have htake : (payload ++ '"' :: rest).takeWhile isStrClass = payload := by
    rw [takeWhile_append_all _ _ h]
    simp [List.takeWhile_cons, hq]
  have hdrop : (payload ++ '"' :: rest).dropWhile isStrClass = '"' :: rest := by
    rw [dropWhile_append_all _ _ h]
    simp [List.dropWhile_cons, hq]
  have step : parseToken ('"' :: (payload ++ '"' :: rest)) ln false =
      (match (payload ++ '"' :: rest).dropWhile isStrClass with
       | '"' :: rest1 =>
         .ok (some (.stringConstant ln
                (String.mk ((payload ++ '"' :: rest).takeWhile isStrClass))),
              rest1.dropWhile isPyWS, false)
       | _ =>
         .error (.tokenizeError ln (String.mk ('"' :: (payload ++ '"' :: rest))))) := rfl
  rw [step, htake, hdrop]
  rfl

/-- C4 witness: the literal `"hi"` tokenizes to StringConstant `hi`. -/
theorem c4_string_class_payload_witness :
    parseToken ('"' :: ("hi".data ++ '"' :: [])) 0 false =
      .ok (some (.stringConstant 0 "hi"), [], false) := by
  simpa using c4_string_class_payload "hi".data [] 0 (by decide)

/-- C5: generating `let a[i] = a[j];` (a, i, j Local 0, 1, 2) does not emit
the claimed instruction sequence: `generate_term` reads `term.value.value`
on the `VarTerm` for `i`, an attribute `VarTerm` does not define, so the
generator raises `AttributeError` instead. -/
theorem c5_let_array_attribute_error :
    genStatement 100 "Main" c5Tabs false 0 c5Stmt =
      .error (.attributeError "VarTerm object has no attribute value") := rfl

/-- C6: the assembler translates `@21` to `0000000000010101` and `D=A;JGT`
to `1110110000010001`. -/
theorem c6_assembler_encodings :
    assembleLine "@21" = some "0000000000010101" ∧
    assembleLine "D=A;JGT" = some "1110110000010001" :=
  ⟨rfl, rfl⟩

/-- C7 counterexample: in a non-void subroutine, `return x.foo();` with `x`
an `int` Local raises `CodeGeneratorError` even though the subroutine is
non-void and the return carries an expression — refuting the claimed
`if and only if`. -/
theorem c7_counterexample :
    genStatement 100 "Main" [[⟨"x", .TypeInt, .LOCAL, 0⟩]] false 0 c7BadReturn =
      .error (.codeGeneratorError "Type has no subroutines") := rfl

/-- C7 (amended): a void return with an expression and a non-void return
without one raise `CodeGeneratorError`; a void return without an expression
emits `push constant 0; return`; a non-void return whose expression
generates successfully emits the expression's code then `return`
(expression generation may itself fail with other errors). -/
theorem c7_return_protocol (fuel : Nat) (cls : String) (tabs : List (List Symbol))
    (uniq ln : Nat) :
    (∀ e, genStatement (fuel + 1) cls tabs true uniq (.ReturnStatement ln (some e)) =
        .error (.codeGeneratorError "void subroutine cannot return a value")) ∧
    (genStatement (fuel + 1) cls tabs true uniq (.ReturnStatement ln none) =
        .ok (["push constant 0", "return"], uniq + 1)) ∧
    (genStatement (fuel + 1) cls tabs false uniq (.ReturnStatement ln none) =
        .error (.codeGeneratorError "Expected subroutine to either be void or return a value")) ∧
    (∀ e c, genExpression fuel cls tabs e = .ok c →
        genStatement (fuel + 1) cls tabs false uniq (.ReturnStatement ln (some e)) =
          .ok (c ++ ["return"], uniq + 1)) := by
  refine ⟨fun e => rfl, rfl, rfl, fun e c h => ?_⟩
  simp only [genStatement]
  rw [h]
  rfl

/-- C7 witness: the two success cases at concrete inputs. -/
theorem c7_return_protocol_witness :
    genStatement 100 "Main" [[]] true 0 (.ReturnStatement 0 none) =
      .ok (["push constant 0", "return"], 1) ∧
    genStatement 100 "Main" [[]] false 0 (.ReturnStatement 0 (some c7One)) =
      .ok (["push constant 1", "return"], 1) := by
  refine ⟨(c7_return_protocol 99 "Main" [[]] 0 0).2.1, ?_⟩
  exact (c7_return_protocol 99 "Main" [[]] 0 0).2.2.2 c7One ["push constant 1"] rfl

/-- C8: for a non-redeclaring sequence of `add`s, every added name looks up
to an entry whose index is the number of earlier same-kind adds. -/
theorem c8_symbol_table_indices (l : List (String × Type_ × Kind))
    (hnd : (l.map (fun x => x.1)).Nodup) (i : Fin l.length) :
    ∃ T, addAll [] l = .ok T ∧
      stLookup T (l.get i).1 =
        some ⟨(l.get i).1, (l.get i).2.1, (l.get i).2.2,
              (countKind (l.take i) (l.get i).2.2 : Int)⟩ := by
  obtain ⟨ext, h1, _, h3⟩ := addAll_ok_lookup l [] inv_nil (by simp) hnd
  refine ⟨ext, by simpa using h1, ?_⟩
  have h := h3 i
  simpa [countOfKind] using h

/-- C8 witness: adding x (Local), y (Argument), z (Local) gives z index 1. -/
theorem c8_symbol_table_indices_witness :
    ∃ T, addAll [] c8Demo = .ok T ∧
      stLookup T "z" = some ⟨"z", .TypeInt, .LOCAL, 1⟩ := by
  obtain ⟨T, h1, h2⟩ := c8_symbol_table_indices c8Demo (by decide) ⟨2, by decide⟩
  exact ⟨T, h1, h2⟩

/-- C9 counterexample: `f(1 2)` — two argument expressions with no comma —
parses without error to a call term with arguments `[1, 2]`, refuting the
claim that a ParseError is raised. -/
theorem c9_counterexample :
    parseTerm 100 c9TokensNoComma =
      .ok (Term.SubroutineCallTerm 0 none (.identifier 0 "f")
        [Expression.mk 0 (.ConstantTerm 0 (.integerConstant 0 "1")) [],
         Expression.mk 0 (.ConstantTerm 0 (.integerConstant 0 "2")) []],
       [.symbol 0 ";"]) := rfl

/-- C9 (amended): the argument-list parser treats a comma as an optional
separator that may precede any argument: `f(1 2)` parses to a call with
arguments `[1, 2]` and `f(,1)` to a call with argument `[1]`, with no
ParseError. -/
theorem c9_lenient_argument_list :
    parseTerm 100 c9TokensNoComma =
      .ok (Term.SubroutineCallTerm 0 none (.identifier 0 "f")
        [Expression.mk 0 (.ConstantTerm 0 (.integerConstant 0 "1")) [],
         Expression.mk 0 (.ConstantTerm 0 (.integerConstant 0 "2")) []],
       [.symbol 0 ";"]) ∧
    parseTerm 100 c9TokensLeadingComma =
      .ok (Term.SubroutineCallTerm 0 none (.identifier 0 "f")
        [Expression.mk 0 (.ConstantTerm 0 (.integerConstant 0 "1")) []],
       [.symbol 0 ";"]) :=
  ⟨rfl, rfl⟩

/-- C10: with `verbose = False` both `generate_label` and `generate_goto`
return the empty string (no label line, no jump); with `verbose = True`
they emit the commented label and jump sequences. -/
theorem c10_verbose_flag_on_label_goto (fn s : String) :
    generate_label false fn s = "" ∧
    generate_goto false fn s = "" ∧
    generate_label true fn s =
      "// label " ++ (fn ++ "$" ++ s) ++ "\n" ++ ("(" ++ (fn ++ "$" ++ s) ++ ")") ∧
    generate_goto true fn s =
      "// goto " ++ (fn ++ "$" ++ s) ++ "\n" ++
        ("@" ++ (fn ++ "$" ++ s) ++ "\n" ++ "0; JMP") :=
  ⟨rfl, rfl, rfl, rfl⟩

end N2T
